import Mathlib

/-!
# Heimdall project gateway: balancer and request handler

Shallow embedding of `app/balancer.go` and `app/server.go`.

* `time.Duration` is a signed 64-bit count of nanoseconds.  The code only compares
  durations, so they are modelled as `Int`; every `int64` value is an `Int`.
* A `*Provider` is modelled as the position of the provider in `Balancer.providers`
  (`NewBalancer` allocates one provider per configuration entry, so pointers and
  positions correspond one to one).
* The outcome of `http.Get`, the measured duration, `url.Parse` and the rune
  lower-casing of the standard library are inputs of the model.
* The mutex makes `checkProviderHealth` and `SelectBestProvider` atomic with respect
  to each other, so the core state evolves by a sequence of whole operations.
-/

namespace Heimdall

/-! ## balancer.go -/

/-- Go `time.Duration`: nanoseconds. -/
abbrev Duration := Int

/-- Go `time.Millisecond`. -/
def Millisecond : Duration := 1000000

/-- Go `time.Hour`. -/
def Hour : Duration := 3600000000000

/-- Go `ProviderConfig` (config.go). -/
structure ProviderConfig where
  Name : String
  HTTPURL : String
  WsURL : String
  APIKeyEnv : String
  HostnameEnv : String
  AuthTokenEnv : String
deriving DecidableEq, Repr

/-- Go `Provider`: the live state of an upstream RPC provider. -/
structure Provider where
  Name : String
  HttpURL : String
  WsURL : String
  Latency : Duration
  IsHealthy : Bool
deriving DecidableEq, Repr

/-- Go `Balancer`: the pool of providers (the mutex carries no data). -/
structure Balancer where
  providers : List Provider
deriving DecidableEq, Repr

/-- Body of the `for _, p := range configs` loop of `NewBalancer`: one `append`.
`Latency` is not set by the composite literal, so it is the zero value. -/
def appendProvider (providers : List Provider) (p : ProviderConfig) : List Provider :=
  providers ++ [{ Name := p.Name, HttpURL := p.HTTPURL, WsURL := p.WsURL,
                  Latency := 0, IsHealthy := true }]

/-- Go `NewBalancer`. -/
def NewBalancer (configs : List ProviderConfig) : Balancer :=
  { providers := configs.foldl appendProvider [] }

/-- Locals of `SelectBestProvider`: `bestProvider` (nil is `none`) and `minLatency`. -/
structure SelectState where
  bestProvider : Option Nat
  minLatency : Duration
deriving DecidableEq, Repr

/-- The `for _, p := range b.providers` loop of `SelectBestProvider`; `i` is the
position of the head of the remaining slice. -/
def selectLoop : List Provider → Nat → SelectState → SelectState
  | [], _, s => s
  | p :: rest, i, s =>
    if p.IsHealthy && decide (p.Latency < s.minLatency) then
      selectLoop rest (i + 1) { bestProvider := some i, minLatency := p.Latency }
    else
      selectLoop rest (i + 1) s

/-- Go `Balancer.SelectBestProvider`: the returned pointer, as a position. -/
def SelectBestProvider (b : Balancer) : Option Nat :=
  (selectLoop b.providers 0 { bestProvider := none, minLatency := Hour }).bestProvider

/-- Go `*http.Response`, as far as the probe reads it. -/
structure Response where
  StatusCode : Int
deriving DecidableEq, Repr

/-- The two results of `http.Get`: `resp` and `err` (nil is `none`). -/
structure GetResult where
  resp : Option Response
  err : Option String
deriving DecidableEq, Repr

/-- What `checkProviderHealth` does besides updating the provider. -/
inductive ProbeEffect where
  | logUnhealthy (name : String) (latency : Duration) (err : Option String)
  | logHealthy (name : String) (latency : Duration)
  | closeBody
deriving DecidableEq, Repr

/-- The condition of the `if` in `checkProviderHealth`:
`err != nil || (resp != nil && resp.StatusCode >= 400)`. -/
def probeFailed (g : GetResult) : Bool :=
  g.err.isSome ||
    (match g.resp with
     | some resp => decide (resp.StatusCode ≥ 400)
     | none => false)

/-- The body of `checkProviderHealth` under the lock, on the pointed-to provider. -/
def recordProbe (p : Provider) (g : GetResult) (latency : Duration) :
    Provider × List ProbeEffect :=
  let (p1, log) :=
    if probeFailed g then
      ({ p with IsHealthy := false },
        if p.IsHealthy then [ProbeEffect.logUnhealthy p.Name latency g.err] else [])
    else
      ({ p with IsHealthy := true, Latency := latency },
        if !p.IsHealthy then [ProbeEffect.logHealthy p.Name latency] else [])
  (p1, log ++ (if g.resp.isSome then [ProbeEffect.closeBody] else []))

/-- Go `Balancer.checkProviderHealth` for the provider at position `i`, given the
result `g` of `http.Get(p.HttpURL)` and the measured `latency`.  `runChecks` only
passes providers of the list; a position outside it touches nothing. -/
def checkProviderHealth (b : Balancer) (i : Nat) (g : GetResult) (latency : Duration) :
    Balancer × List ProbeEffect :=
  match b.providers[i]? with
  | none => (b, [])
  | some p =>
    let r := recordProbe p g latency
    ({ providers := b.providers.set i r.1 }, r.2)

/-! ## server.go -/

/-- Go `http.Header`: the values stored under each (canonical) key. -/
abbrev Header := List (String × List String)

/-- Go `Header.Get` for a key that is already canonical, as `"Upgrade"` is: the
first value stored under the key, `""` when there is none. -/
def Header.Get (h : Header) (key : String) : String :=
  match h.lookup key with
  | some (v :: _) => v
  | _ => ""

/-- Go `url.URL`, the fields the gateway reads or writes and their neighbours. -/
structure URL where
  Scheme : String
  Opaque : String
  Host : String
  Path : String
  RawPath : String
  RawQuery : String
  Fragment : String
deriving DecidableEq, Repr

/-- Go `http.Request`. -/
structure Request where
  Method : String
  URL : URL
  Host : String
  Header : Header
  Body : String
deriving DecidableEq, Repr

/-- The standard library and the network, as seen by the handler. -/
structure Env where
  /-- Rune lower-casing, `unicode.ToLower`. -/
  lower : Char → Char
  /-- Result of `url.Parse`. -/
  parse : String → Except String URL
  /-- Whether `websocket.DefaultDialer.Dial` succeeds. -/
  dialOk : URL → Header → Bool
  /-- Whether `upgrader.Upgrade` succeeds. -/
  upgradeOk : Request → Bool

/-- Go `strings.ToLower`: every rune replaced by its lower case. -/
def ToLower (lower : Char → Char) (s : String) : String :=
  String.mk (s.data.map lower)

/-- Go `isWebSocket`. -/
def isWebSocket (lower : Char → Char) (r : Request) : Bool :=
  ToLower lower (r.Header.Get "Upgrade") == "websocket"

/-- Go `http.StatusServiceUnavailable`. -/
def StatusServiceUnavailable : Nat := 503

/-- Go `http.StatusInternalServerError`. -/
def StatusInternalServerError : Nat := 500

/-- Go `http.StatusBadGateway`. -/
def StatusBadGateway : Nat := 502

/-- What the handler does to the client connection, the log and the network, in
order. -/
inductive Effect where
  | httpError (body : String) (code : Nat)
  | logWsParseError (name : String) (err : String)
  | logDialError (name : String)
  | logUpgradeError
  | logEstablished (name : String)
  | logClosed
  | logWebSocketRequest (name : String)
  | logHTTPRequest (name : String) (latency : Duration)
  | logParseError (name : String) (err : String)
  | dial (remote : URL) (header : Header)
  | upgrade
  | relay
  | closeClient
  | closeUpstream
  | proxyServeHTTP (remote : URL) (outreq : Request)
deriving DecidableEq, Repr

/-- Go `handleWebSocket`; the two relay goroutines are the single effect `relay`. -/
def handleWebSocket (env : Env) (r : Request) (provider : Provider) : List Effect :=
  match env.parse provider.WsURL with
  | .error err =>
    [.logWsParseError provider.Name err,
     .httpError "Internal Server Error" StatusInternalServerError]
  | .ok remoteURL =>
    if !env.dialOk remoteURL r.Header then
      [.dial remoteURL r.Header, .logDialError provider.Name,
       .httpError "Bad Gateway" StatusBadGateway]
    else if !env.upgradeOk r then
      [.dial remoteURL r.Header, .upgrade, .logUpgradeError, .closeUpstream]
    else
      [.dial remoteURL r.Header, .upgrade, .logEstablished provider.Name, .relay,
       .logClosed, .closeClient, .closeUpstream]

/-- The `proxy.Director` closure of `NewServer`: `remote` and `r` are captured,
`req` is the outgoing request it rewrites. -/
def Director (remote : URL) (r : Request) (req : Request) : Request :=
  { req with
    URL := { req.URL with
      Scheme := remote.Scheme
      Host := remote.Host
      Path := r.URL.Path
      RawQuery := r.URL.RawQuery }
    Host := remote.Host
    Header := r.Header }

/-- The handler closure of `NewServer`.  `proxy.ServeHTTP(w, r)` hands a clone of
`r` to the `Director` and sends the result. The branch where the selected position
is outside the list cannot be taken (`SelectBestProvider` returns a position of its
own list). -/
def handler (env : Env) (balancer : Balancer) (r : Request) : List Effect :=
  match SelectBestProvider balancer with
  | none =>
    [.httpError "No healthy upstream providers are available." StatusServiceUnavailable]
  | some i =>
    match balancer.providers[i]? with
    | none => []
    | some provider =>
      if isWebSocket env.lower r then
        .logWebSocketRequest provider.Name :: handleWebSocket env r provider
      else
        match env.parse provider.HttpURL with
        | .error err =>
          [.logHTTPRequest provider.Name provider.Latency,
           .logParseError provider.Name err,
           .httpError "Internal Server Error" StatusInternalServerError]
        | .ok remote =>
          [.logHTTPRequest provider.Name provider.Latency,
           .proxyServeHTTP remote (Director remote r r)]

/-- An effect that reaches an upstream: the WebSocket dial or the reverse proxy. -/
def Effect.isOutbound : Effect → Bool
  | .dial _ _ => true
  | .relay => true
  | .proxyServeHTTP _ _ => true
  | _ => false

/-! ## Operations on the core state -/

/-- One operation on the balancer: a probe result recorded for the provider at a
position, or a selection. -/
inductive Op where
  | probe (i : Nat) (g : GetResult) (latency : Duration)
  | select
deriving DecidableEq, Repr

/-- The balancer after one operation.  `SelectBestProvider` assigns only its locals
`bestProvider` and `minLatency`, so the state after it is the state before it. -/
def step (b : Balancer) : Op → Balancer
  | .probe i g latency => (checkProviderHealth b i g latency).1
  | .select => b

/-- The balancer after a sequence of operations. -/
def run (b : Balancer) (ops : List Op) : Balancer :=
  ops.foldl step b

/-- The configured part of a provider: name and the two endpoints. -/
def Provider.identity (p : Provider) : String × String × String :=
  (p.Name, p.HttpURL, p.WsURL)

/-- The configured triple of a configuration entry. -/
def ProviderConfig.identity (c : ProviderConfig) : String × String × String :=
  (c.Name, c.HTTPURL, c.WsURL)

/-- Specification side of the WebSocket test: two strings are equal ignoring letter
case when they have the same length and their runes agree up to case. -/
def equalIgnoringCase (lower : Char → Char) (a b : String) : Bool :=
  a.data.map lower == b.data.map lower

/-! ## Concrete configurations and states used below -/

/-- Providers A (50ms, healthy), B (20ms, healthy), C (10ms, unhealthy). -/
def exampleABC : Balancer :=
  { providers :=
      [{ Name := "A", HttpURL := "https://a.example", WsURL := "wss://a.example",
         Latency := 50 * Millisecond, IsHealthy := true },
       { Name := "B", HttpURL := "https://b.example", WsURL := "wss://b.example",
         Latency := 20 * Millisecond, IsHealthy := true },
       { Name := "C", HttpURL := "https://c.example", WsURL := "wss://c.example",
         Latency := 10 * Millisecond, IsHealthy := false }] }

/-- Providers A (50ms), B (20ms), C (20ms), D (20ms), all healthy: B, C and D share
the minimal latency. -/
def exampleTie : Balancer :=
  { providers :=
      [{ Name := "A", HttpURL := "https://a.example", WsURL := "wss://a.example",
         Latency := 50 * Millisecond, IsHealthy := true },
       { Name := "B", HttpURL := "https://b.example", WsURL := "wss://b.example",
         Latency := 20 * Millisecond, IsHealthy := true },
       { Name := "C", HttpURL := "https://c.example", WsURL := "wss://c.example",
         Latency := 20 * Millisecond, IsHealthy := true },
       { Name := "D", HttpURL := "https://d.example", WsURL := "wss://d.example",
         Latency := 20 * Millisecond, IsHealthy := true }] }

/-- A configuration with the single provider A. -/
def exampleConfigA : ProviderConfig :=
  { Name := "A", HTTPURL := "https://a.example", WsURL := "wss://a.example",
    APIKeyEnv := "A_KEY", HostnameEnv := "", AuthTokenEnv := "" }

/-- A second configuration entry, B. -/
def exampleConfigB : ProviderConfig :=
  { Name := "B", HTTPURL := "https://b.example", WsURL := "wss://b.example",
    APIKeyEnv := "B_KEY", HostnameEnv := "", AuthTokenEnv := "" }

/-- The balancer built from the single provider A, after one probe of A that was
answered with status 200 and took exactly one hour. -/
def exampleSlowProbe : Balancer :=
  (checkProviderHealth (NewBalancer [exampleConfigA]) 0
    { resp := some { StatusCode := 200 }, err := none } Hour).1

/-- The balancer built from A and B after each was probed once, both probes answered
with status 200 after exactly two hours: A and B are healthy and share the minimal
latency. -/
def exampleSlowTie : Balancer :=
  (checkProviderHealth
    (checkProviderHealth (NewBalancer [exampleConfigA, exampleConfigB]) 0
      { resp := some { StatusCode := 200 }, err := none } (2 * Hour)).1
    1 { resp := some { StatusCode := 200 }, err := none } (2 * Hour)).1

/-- Two providers, both unhealthy. -/
def exampleAllUnhealthy : Balancer :=
  { providers :=
      [{ Name := "A", HttpURL := "https://a.example", WsURL := "wss://a.example",
         Latency := 5 * Millisecond, IsHealthy := false },
       { Name := "B", HttpURL := "https://b.example", WsURL := "wss://b.example",
         Latency := 7 * Millisecond, IsHealthy := false }] }

/-- A stand-in for `url.Parse` that knows the endpoints of the examples. -/
def exampleParse (s : String) : Except String URL :=
  if s = "https://up.example/abc" then
    .ok { Scheme := "https", Opaque := "", Host := "up.example", Path := "/abc",
          RawPath := "", RawQuery := "", Fragment := "" }
  else if s = "wss://up.example/abc" then
    .ok { Scheme := "wss", Opaque := "", Host := "up.example", Path := "/abc",
          RawPath := "", RawQuery := "", Fragment := "" }
  else
    .error "parse error"

/-- An environment for the examples: ASCII lower-casing, every dial and upgrade
succeeds. -/
def exampleEnv : Env :=
  { lower := Char.toLower
    parse := exampleParse
    dialOk := fun _ _ => true
    upgradeOk := fun _ => true }

/-- A WebSocket upgrade request for `/ws`. -/
def exampleUpgradeRequest : Request :=
  { Method := "GET"
    URL := { Scheme := "", Opaque := "", Host := "", Path := "/ws", RawPath := "",
             RawQuery := "", Fragment := "" }
    Host := "gateway.local:8080"
    Header := [("Connection", ["Upgrade"]), ("Upgrade", ["WebSocket"])]
    Body := "" }

/-- A plain HTTP request for `/foo?x=1`. -/
def examplePlainRequest : Request :=
  { Method := "POST"
    URL := { Scheme := "", Opaque := "", Host := "", Path := "/foo", RawPath := "",
             RawQuery := "x=1", Fragment := "" }
    Host := "gateway.local:8080"
    Header := [("Content-Type", ["application/json"]), ("Authorization", ["Bearer t"])]
    Body := "\x7b\x7d" }

/-- A balancer whose single, healthy provider has the HTTP endpoint
`https://up.example/abc`. -/
def exampleUp : Balancer :=
  { providers :=
      [{ Name := "Up", HttpURL := "https://up.example/abc", WsURL := "wss://up.example/abc",
         Latency := 3 * Millisecond, IsHealthy := true }] }

/-- A sequence of operations: a failed probe of the second provider, a selection, a
successful probe of the first provider, a probe through a position outside the list
and a second selection. -/
def exampleOps : List Op :=
  [Op.probe 1 { resp := none, err := some "dial tcp: connection refused" }
     (900 * Millisecond),
   Op.select,
   Op.probe 0 { resp := some { StatusCode := 200 }, err := none } (7 * Millisecond),
   Op.probe 5 { resp := some { StatusCode := 200 }, err := none } (1 * Millisecond),
   Op.select]

/-! ## Lemmas on the selection loop -/

/-- A slice without a healthy provider below the current minimum leaves the locals
of the loop as they are. -/
theorem selectLoop_skip (ps : List Provider) (i : Nat) (s : SelectState)
    (h : ∀ p ∈ ps, ¬ (p.IsHealthy = true ∧ p.Latency < s.minLatency)) :
    selectLoop ps i s = s := by
  induction ps generalizing i with
  | nil => rfl
  | cons p rest ih =>
    have hp := h p (List.mem_cons_self _ _)
    have hrest : ∀ q ∈ rest, ¬ (q.IsHealthy = true ∧ q.Latency < s.minLatency) :=
      fun q hq => h q (List.mem_cons_of_mem _ hq)
    have hc : (p.IsHealthy && decide (p.Latency < s.minLatency)) = false := by
      cases hh : p.IsHealthy with
      | false => simp
      | true =>
        have : ¬ p.Latency < s.minLatency := fun hl => hp ⟨hh, hl⟩
        simp [this]
    simp only [selectLoop, hc]
    exact ih (i + 1) hrest

/-- The minimum kept by the loop never exceeds the latency of a healthy provider
it has visited. -/
theorem selectLoop_min_le (ps : List Provider) (i : Nat) (s : SelectState) :
    (selectLoop ps i s).minLatency ≤ s.minLatency ∧
      ∀ q ∈ ps, q.IsHealthy = true → (selectLoop ps i s).minLatency ≤ q.Latency := by
  induction ps generalizing i s with
  | nil => exact ⟨le_refl _, fun q hq => absurd hq (List.not_mem_nil q)⟩
  | cons p rest ih =>
    by_cases hc : (p.IsHealthy && decide (p.Latency < s.minLatency)) = true
    · have hstep : selectLoop (p :: rest) i s
          = selectLoop rest (i + 1) { bestProvider := some i, minLatency := p.Latency } := by
        simp only [selectLoop, hc, if_true]
      rw [hstep]
      obtain ⟨h1, h2⟩ := ih (i + 1) { bestProvider := some i, minLatency := p.Latency }
      have hlt : p.Latency < s.minLatency := by
        simp only [Bool.and_eq_true, decide_eq_true_eq] at hc
        exact hc.2
      refine ⟨le_trans h1 (le_of_lt hlt), ?_⟩
      intro q hq hqh
      rcases List.mem_cons.mp hq with rfl | hq
      · exact h1
      · exact h2 q hq hqh
    · have hstep : selectLoop (p :: rest) i s = selectLoop rest (i + 1) s := by
        simp only [selectLoop, hc, Bool.false_eq_true, if_false]
      rw [hstep]
      obtain ⟨h1, h2⟩ := ih (i + 1) s
      refine ⟨h1, ?_⟩
      intro q hq hqh
      rcases List.mem_cons.mp hq with rfl | hq
      · have : ¬ q.Latency < s.minLatency := by
          intro hl
          apply hc
          simp [hqh, hl]
        exact le_trans h1 (not_lt.mp this)
      · exact h2 q hq hqh

/-- Either the loop leaves its locals untouched, or it ends on a healthy provider of
the slice whose latency is the final minimum, is below the initial one, and is
strictly below that of every healthy provider before it in the slice. -/
theorem selectLoop_result (ps : List Provider) (i : Nat) (s : SelectState) :
    selectLoop ps i s = s ∨
      ∃ k p, ps[k]? = some p ∧
        (selectLoop ps i s).bestProvider = some (i + k) ∧
        p.IsHealthy = true ∧
        (selectLoop ps i s).minLatency = p.Latency ∧
        p.Latency < s.minLatency ∧
        ∀ j q, j < k → ps[j]? = some q → q.IsHealthy = true → p.Latency < q.Latency := by
  induction ps generalizing i s with
  | nil => exact Or.inl rfl
  | cons p rest ih =>
    by_cases hc : (p.IsHealthy && decide (p.Latency < s.minLatency)) = true
    · have hstep : selectLoop (p :: rest) i s
          = selectLoop rest (i + 1) { bestProvider := some i, minLatency := p.Latency } := by
        simp only [selectLoop, hc, if_true]
      simp only [Bool.and_eq_true, decide_eq_true_eq] at hc
      right
      rw [hstep]
      rcases ih (i + 1) { bestProvider := some i, minLatency := p.Latency } with h | h
      · refine ⟨0, p, List.getElem?_cons_zero, ?_, hc.1, ?_, hc.2, ?_⟩
        · rw [h]; rfl
        · rw [h]
        · intro j q hj; exact absurd hj (Nat.not_lt_zero j)
      · obtain ⟨k, p1, hk, hb, hh, hm, hl, hbefore⟩ := h
        refine ⟨k + 1, p1, by simpa using hk, ?_, hh, hm, lt_trans hl hc.2, ?_⟩
        · rw [hb]; congr 1; omega
        · intro j q hj hq hqh
          cases j with
          | zero =>
            simp only [List.getElem?_cons_zero, Option.some.injEq] at hq
            subst hq
            exact hl
          | succ j1 =>
            simp only [List.getElem?_cons_succ] at hq
            exact hbefore j1 q (by omega) hq hqh
    · have hstep : selectLoop (p :: rest) i s = selectLoop rest (i + 1) s := by
        simp only [selectLoop, hc, Bool.false_eq_true, if_false]
      rw [hstep]
      rcases ih (i + 1) s with h | h
      · exact Or.inl h
      · right
        obtain ⟨k, p1, hk, hb, hh, hm, hl, hbefore⟩ := h
        refine ⟨k + 1, p1, by simpa using hk, ?_, hh, hm, hl, ?_⟩
        · rw [hb]; congr 1; omega
        · intro j q hj hq hqh
          cases j with
          | zero =>
            simp only [List.getElem?_cons_zero, Option.some.injEq] at hq
            subst hq
            have : ¬ p.Latency < s.minLatency := by
              intro hlt
              apply hc
              simp [hqh, hlt]
            exact lt_of_lt_of_le hl (not_lt.mp this)
          | succ j1 =>
            simp only [List.getElem?_cons_succ] at hq
            exact hbefore j1 q (by omega) hq hqh

/-- What a returned position says about the list: the provider there is healthy, no
healthy provider has a lower latency, and every healthy provider before it has a
strictly higher one. -/
theorem selectBest_some (b : Balancer) (i : Nat) (h : SelectBestProvider b = some i) :
    ∃ p, b.providers[i]? = some p ∧ p.IsHealthy = true ∧ p.Latency < Hour ∧
      (∀ q ∈ b.providers, q.IsHealthy = true → p.Latency ≤ q.Latency) ∧
      ∀ j q, j < i → b.providers[j]? = some q → q.IsHealthy = true →
        p.Latency < q.Latency := by
  unfold SelectBestProvider at h
  rcases selectLoop_result b.providers 0 { bestProvider := none, minLatency := Hour }
    with hr | ⟨k, p, hk, hb, hh, hm, hl, hbefore⟩
  · rw [hr] at h; cases h
  · rw [hb] at h
    have hik : k = i := by
      have := Option.some.inj h
      omega
    subst hik
    refine ⟨p, hk, hh, hl, ?_, hbefore⟩
    intro q hq hqh
    have := (selectLoop_min_le b.providers 0
      { bestProvider := none, minLatency := Hour }).2 q hq hqh
    rw [hm] at this
    exact this

/-- With no healthy provider in the list the selection returns nil. -/
theorem selectBest_none_of_unhealthy (b : Balancer)
    (h : ∀ p ∈ b.providers, p.IsHealthy = false) : SelectBestProvider b = none := by
  unfold SelectBestProvider
  rw [selectLoop_skip]
  intro p hp hc
  rw [h p hp] at hc
  exact Bool.false_ne_true hc.1

/-- The loop of `NewBalancer` builds one provider per configuration entry, in order. -/
theorem foldl_appendProvider (configs : List ProviderConfig) (acc : List Provider) :
    configs.foldl appendProvider acc
      = acc ++ configs.map (fun c =>
          ({ Name := c.Name, HttpURL := c.HTTPURL, WsURL := c.WsURL,
             Latency := 0, IsHealthy := true } : Provider)) := by
  induction configs generalizing acc with
  | nil => simp
  | cons c rest ih => simp [List.foldl, ih, appendProvider]

/-- The provider list of a fresh balancer. -/
theorem NewBalancer_providers (configs : List ProviderConfig) :
    (NewBalancer configs).providers
      = configs.map (fun c =>
          ({ Name := c.Name, HttpURL := c.HTTPURL, WsURL := c.WsURL,
             Latency := 0, IsHealthy := true } : Provider)) := by
  simp [NewBalancer, foldl_appendProvider]

/-- A provider is returned exactly when some healthy provider has a latency below
one hour, the initial value of `minLatency`. -/
theorem selectBest_isSome_iff (b : Balancer) :
    (SelectBestProvider b).isSome = true ↔
      ∃ p ∈ b.providers, p.IsHealthy = true ∧ p.Latency < Hour := by
  constructor
  · intro h
    obtain ⟨i, hi⟩ := Option.isSome_iff_exists.mp h
    obtain ⟨p, hp, hh, hl, _, _⟩ := selectBest_some b i hi
    exact ⟨p, List.getElem?_mem hp, hh, hl⟩
  · rintro ⟨p, hp, hh, hl⟩
    unfold SelectBestProvider
    have hmin := (selectLoop_min_le b.providers 0
      { bestProvider := none, minLatency := Hour }).2 p hp hh
    rcases selectLoop_result b.providers 0 { bestProvider := none, minLatency := Hour }
      with hr | ⟨k, p1, _, hb, _⟩
    · rw [hr] at hmin
      exact absurd hl (not_lt.mpr hmin)
    · rw [hb]; rfl

/-- When a provider is returned it is the first, in the order of the provider slice,
among the healthy providers of minimal latency: it is healthy, no healthy provider
has a lower latency, and no healthy provider at an earlier position has a latency
less than or equal to its own. -/
theorem selectBest_first_of_minimal (b : Balancer) (i : Nat)
    (h : SelectBestProvider b = some i) :
    ∃ p, b.providers[i]? = some p ∧ p.IsHealthy = true ∧
      (∀ q ∈ b.providers, q.IsHealthy = true → p.Latency ≤ q.Latency) ∧
      ∀ j q, j < i → b.providers[j]? = some q → q.IsHealthy = true →
        ¬ q.Latency ≤ p.Latency := by
  obtain ⟨p, hp, hh, _, hmin, hbefore⟩ := selectBest_some b i h
  exact ⟨p, hp, hh, hmin, fun j q hj hq hqh => not_le.mpr (hbefore j q hj hq hqh)⟩

/-- On A (50ms), B (20ms), C (20ms), D (20ms), all healthy, B, C and D share the
minimal latency and B, at position 1, is returned. -/
theorem selectBest_exampleTie :
    SelectBestProvider exampleTie = some 1 ∧
      (exampleTie.providers[1]?).map Provider.Name = some "B" := by
  refine ⟨by decide, by decide⟩

/-! ## Lemmas on the WebSocket test -/

/-- On ASCII runes a lower-casing that agrees with the ASCII one maps a string the
way the ASCII one does. -/
theorem map_lower_ascii (lower : Char → Char)
    (hascii : ∀ c : Char, c.toNat < 128 → lower c = c.toLower)
    (l : List Char) (hl : ∀ c ∈ l, c.toNat < 128) :
    l.map lower = l.map Char.toLower :=
  List.map_congr_left (fun c hc => hascii c (hl c hc))

/-- The test of `isWebSocket`, on the runes of the header value. -/
theorem isWebSocket_iff (lower : Char → Char) (r : Request) :
    isWebSocket lower r = true ↔
      (r.Header.Get "Upgrade").data.map lower = "websocket".data := by
  unfold isWebSocket ToLower
  rw [beq_iff_eq, String.ext_iff]

/-- The runes of `"websocket"` are their own lower case. -/
theorem websocket_lower (lower : Char → Char)
    (hascii : ∀ c : Char, c.toNat < 128 → lower c = c.toLower) :
    "websocket".data.map lower = "websocket".data := by
  rw [map_lower_ascii lower hascii _ (by decide)]
  decide

/-! ## Lemmas on the registry -/

/-- Recording a probe result leaves name and endpoints of the provider alone. -/
theorem recordProbe_identity (p : Provider) (g : GetResult) (d : Duration) :
    (recordProbe p g d).1.identity = p.identity := by
  unfold recordProbe Provider.identity
  cases probeFailed g <;> rfl

/-- A probe changes nothing at any other position. -/
theorem checkProviderHealth_other (b : Balancer) (i : Nat) (g : GetResult) (d : Duration)
    (j : Nat) (hj : j ≠ i) :
    (checkProviderHealth b i g d).1.providers[j]? = b.providers[j]? := by
  unfold checkProviderHealth
  cases hp : b.providers[i]? with
  | none => rfl
  | some p =>
    simp only [List.getElem?_set]
    rw [if_neg (fun h => hj h.symm)]

/-- A probe keeps the sequence of names and endpoints. -/
theorem checkProviderHealth_identity (b : Balancer) (i : Nat) (g : GetResult)
    (d : Duration) :
    (checkProviderHealth b i g d).1.providers.map Provider.identity
      = b.providers.map Provider.identity := by
  unfold checkProviderHealth
  cases hp : b.providers[i]? with
  | none => rfl
  | some p =>
    apply List.ext_getElem?
    intro j
    simp only [List.getElem?_map, List.getElem?_set]
    by_cases hij : i = j
    · subst hij
      rw [if_pos rfl, hp]
      have hi : i < b.providers.length := by
        rcases Nat.lt_or_ge i b.providers.length with h | h
        · exact h
        · rw [List.getElem?_eq_none h] at hp; cases hp
      simp [hi, recordProbe_identity]
    · rw [if_neg hij]

/-- Every operation keeps the sequence of names and endpoints. -/
theorem step_identity (b : Balancer) (op : Op) :
    (step b op).providers.map Provider.identity = b.providers.map Provider.identity := by
  cases op with
  | probe i g d => exact checkProviderHealth_identity b i g d
  | select => rfl

/-- Every sequence of operations keeps the sequence of names and endpoints. -/
theorem run_identity (b : Balancer) (ops : List Op) :
    (run b ops).providers.map Provider.identity = b.providers.map Provider.identity := by
  induction ops generalizing b with
  | nil => rfl
  | cons op rest ih =>
    have h := ih (step b op)
    rw [step_identity] at h
    exact h

/-- The names and endpoints of a fresh balancer are those of the configuration. -/
theorem NewBalancer_identity (configs : List ProviderConfig) :
    (NewBalancer configs).providers.map Provider.identity
      = configs.map ProviderConfig.identity := by
  rw [NewBalancer_providers, List.map_map]
  rfl

/-! ## Lemmas on the probe classification -/

/-- On the outcomes in which a nil error comes with a response, the probe is
classified as success exactly when a response was received without error and its
status code is below 400. -/
theorem probeFailed_false_of_response (g : GetResult)
    (hget : g.err = none → g.resp ≠ none) :
    probeFailed g = false ↔
      (g.err = none ∧ ∃ resp, g.resp = some resp ∧ resp.StatusCode < 400) := by
  obtain ⟨resp, err⟩ := g
  cases err with
  | some e => simp [probeFailed]
  | none =>
    cases resp with
    | none => exact absurd rfl (hget rfl)
    | some r => simp [probeFailed]

/-! ## The claims -/

/-- C1: whenever `SelectBestProvider` returns a provider, that provider is an element
of the list, it is healthy, and its latency is at most the latency of every healthy
provider of the list; unhealthy providers play no part in the bound. -/
theorem C1_selectBest_healthy_minimal (b : Balancer) (i : Nat)
    (h : SelectBestProvider b = some i) :
    ∃ p, b.providers[i]? = some p ∧ p ∈ b.providers ∧ p.IsHealthy = true ∧
      ∀ q ∈ b.providers, q.IsHealthy = true → p.Latency ≤ q.Latency := by
  obtain ⟨p, hp, hh, _, hmin, _⟩ := selectBest_some b i h
  exact ⟨p, hp, List.getElem?_mem hp, hh, hmin⟩

/-- C1 on the providers A (50ms, healthy), B (20ms, healthy), C (10ms, unhealthy):
the result is B, the provider at position 1. -/
theorem C1_selectBest_healthy_minimal_witness :
    SelectBestProvider exampleABC = some 1 ∧
      (exampleABC.providers[1]?).map Provider.Name = some "B" ∧
      ∃ p, exampleABC.providers[1]? = some p ∧ p ∈ exampleABC.providers ∧
        p.IsHealthy = true ∧
        ∀ q ∈ exampleABC.providers, q.IsHealthy = true → p.Latency ≤ q.Latency :=
  ⟨by decide, by decide, C1_selectBest_healthy_minimal exampleABC 1 (by decide)⟩

/-- C2: a list whose only provider is healthy with a latency of one hour, reached
from a fresh balancer by one successful probe, makes `SelectBestProvider` return nil
although a provider of the list is healthy. -/
theorem C2_selectBest_nil_despite_healthy :
    exampleSlowProbe.providers
        = [{ Name := "A", HttpURL := "https://a.example", WsURL := "wss://a.example",
             Latency := Hour, IsHealthy := true }] ∧
      (∃ p ∈ exampleSlowProbe.providers, p.IsHealthy = true) ∧
      SelectBestProvider exampleSlowProbe = none := by
  refine ⟨by decide, ⟨_, List.mem_singleton.mpr rfl, rfl⟩, by decide⟩

/-- C3: on the list A, B in which both providers are healthy and share the minimal
latency of two hours, reached from a fresh balancer by one successful probe of each,
`SelectBestProvider` returns nil and not A, the tied provider with the smallest
index. -/
theorem C3_selectBest_nil_on_slow_tie :
    exampleSlowTie.providers
        = [{ Name := "A", HttpURL := "https://a.example", WsURL := "wss://a.example",
             Latency := 2 * Hour, IsHealthy := true },
           { Name := "B", HttpURL := "https://b.example", WsURL := "wss://b.example",
             Latency := 2 * Hour, IsHealthy := true }] ∧
      (∀ p ∈ exampleSlowTie.providers, p.IsHealthy = true ∧ p.Latency = 2 * Hour) ∧
      SelectBestProvider exampleSlowTie = none ∧
      SelectBestProvider exampleSlowTie ≠ some 0 := by
  refine ⟨by decide, by decide, by decide, by decide⟩

/-- C10: `NewBalancer` creates one provider per configuration entry, each with
`IsHealthy = true` and `Latency = 0`; on the fresh balancer of a non-empty
configuration `SelectBestProvider` returns position 0, the provider built from the
first entry, and on the fresh balancer of the empty configuration it returns nil. -/
theorem C10_fresh_balancer_selects_first (c : ProviderConfig) (cs : List ProviderConfig) :
    (NewBalancer (c :: cs)).providers
        = (c :: cs).map (fun e =>
            ({ Name := e.Name, HttpURL := e.HTTPURL, WsURL := e.WsURL,
               Latency := 0, IsHealthy := true } : Provider)) ∧
      SelectBestProvider (NewBalancer (c :: cs)) = some 0 ∧
      (NewBalancer (c :: cs)).providers[0]?
        = some { Name := c.Name, HttpURL := c.HTTPURL, WsURL := c.WsURL,
                 Latency := 0, IsHealthy := true } ∧
      (NewBalancer []).providers = [] ∧
      SelectBestProvider (NewBalancer []) = none := by
  refine ⟨NewBalancer_providers _, ?_, ?_, rfl, rfl⟩
  · unfold SelectBestProvider
    rw [NewBalancer_providers]
    have hc : ((true && decide ((0 : Duration) < Hour)) = true) := by decide
    simp only [List.map_cons, selectLoop, hc, if_true]
    rw [selectLoop_skip]
    intro p hp hcontra
    obtain ⟨e, _, rfl⟩ := List.mem_map.mp hp
    exact absurd hcontra.2 (lt_irrefl _)
  · rw [NewBalancer_providers]
    simp

/-- C4: after a probe classified as success the probed provider has
`IsHealthy = true` and `Latency` equal to the measured duration; after a probe
classified as failure it has `IsHealthy = false` and the `Latency` it had before. -/
theorem C4_probe_update (b : Balancer) (i : Nat) (p : Provider) (g : GetResult)
    (d : Duration) (hp : b.providers[i]? = some p) :
    ∃ p1, (checkProviderHealth b i g d).1.providers[i]? = some p1 ∧
      (recordProbe p g d).1 = p1 ∧
      (probeFailed g = false → p1.IsHealthy = true ∧ p1.Latency = d) ∧
      (probeFailed g = true → p1.IsHealthy = false ∧ p1.Latency = p.Latency) := by
  have hi : i < b.providers.length := by
    rcases Nat.lt_or_ge i b.providers.length with h | h
    · exact h
    · rw [List.getElem?_eq_none h] at hp; cases hp
  refine ⟨(recordProbe p g d).1, ?_, rfl, ?_, ?_⟩
  · simp [checkProviderHealth, hp, hi]
  · intro hg; simp [recordProbe, hg]
  · intro hg; simp [recordProbe, hg]

/-- C4 on provider B of the example list (20ms, healthy): a probe answered with
status 200 after 7ms records 7ms, a probe answered with status 503 keeps 20ms and
marks the provider unhealthy. -/
theorem C4_probe_update_witness :
    (∃ p1, (checkProviderHealth exampleABC 1
          { resp := some { StatusCode := 200 }, err := none }
          (7 * Millisecond)).1.providers[1]? = some p1 ∧
        (recordProbe
          { Name := "B", HttpURL := "https://b.example", WsURL := "wss://b.example",
            Latency := 20 * Millisecond, IsHealthy := true }
          { resp := some { StatusCode := 200 }, err := none } (7 * Millisecond)).1 = p1 ∧
        (probeFailed { resp := some { StatusCode := 200 }, err := none } = false →
          p1.IsHealthy = true ∧ p1.Latency = 7 * Millisecond) ∧
        (probeFailed { resp := some { StatusCode := 200 }, err := none } = true →
          p1.IsHealthy = false ∧ p1.Latency = 20 * Millisecond)) ∧
      probeFailed { resp := some { StatusCode := 200 }, err := none } = false ∧
      probeFailed { resp := some { StatusCode := 503 }, err := none } = true ∧
      ((checkProviderHealth exampleABC 1
          { resp := some { StatusCode := 503 }, err := none }
          (7 * Millisecond)).1.providers[1]?).map
            (fun q => (q.IsHealthy, q.Latency)) = some (false, 20 * Millisecond) :=
  ⟨C4_probe_update exampleABC 1 _ _ _ (by decide), by decide, by decide, by decide⟩

/-- C5: for every outcome of the probe's HTTP GET, where `http.Get` returns a
response whenever it returns no error, the probe is classified as failure exactly
when the GET returned an error or a response with status code at least 400 was
received, and as success exactly when a response was received without error and its
status code is below 400. -/
theorem C5_probe_classification (g : GetResult)
    (hget : g.err = none → g.resp ≠ none) :
    (probeFailed g = true ↔
        (g.err ≠ none ∨ ∃ resp, g.resp = some resp ∧ resp.StatusCode ≥ 400)) ∧
      (probeFailed g = false ↔
        (g.err = none ∧ ∃ resp, g.resp = some resp ∧ resp.StatusCode < 400)) := by
  refine ⟨?_, probeFailed_false_of_response g hget⟩
  obtain ⟨resp, err⟩ := g
  cases err with
  | some e => simp [probeFailed]
  | none =>
    cases resp with
    | none => simp [probeFailed]
    | some r => simp [probeFailed]

/-- C5 on a GET answered with status 200 and no error, classified as success; a GET
answered with status 404 and a GET that failed with an error are failures. -/
theorem C5_probe_classification_witness :
    probeFailed { resp := some { StatusCode := 200 }, err := none } = false ∧
      probeFailed { resp := some { StatusCode := 404 }, err := none } = true ∧
      probeFailed { resp := none, err := some "dial tcp: i/o timeout" } = true ∧
      ((probeFailed { resp := some { StatusCode := 200 }, err := none } = true ↔
          ((none : Option String) ≠ none ∨
            ∃ resp, some ({ StatusCode := 200 } : Response) = some resp ∧
              resp.StatusCode ≥ 400)) ∧
        (probeFailed { resp := some { StatusCode := 200 }, err := none } = false ↔
          ((none : Option String) = none ∧
            ∃ resp, some ({ StatusCode := 200 } : Response) = some resp ∧
              resp.StatusCode < 400))) :=
  ⟨by decide, by decide, by decide,
   C5_probe_classification { resp := some { StatusCode := 200 }, err := none }
     (fun _ h => Option.noConfusion h)⟩

/-- C6: when every provider is unhealthy the handler answers any request with the
single effect `http.Error(..., 503)`: there is no WebSocket dial, no relay and no
reverse-proxy call, whether or not the request is a WebSocket upgrade. -/
theorem C6_all_unhealthy_gives_503 (env : Env) (b : Balancer) (r : Request)
    (h : ∀ p ∈ b.providers, p.IsHealthy = false) :
    handler env b r = [Effect.httpError "No healthy upstream providers are available." 503] ∧
      ∀ e ∈ handler env b r, e.isOutbound = false := by
  have hsel := selectBest_none_of_unhealthy b h
  have hh : handler env b r
      = [Effect.httpError "No healthy upstream providers are available." 503] := by
    simp [handler, hsel, StatusServiceUnavailable]
  refine ⟨hh, ?_⟩
  rw [hh]
  intro e he
  rw [List.mem_singleton.mp he]
  rfl

/-- C6 on two unhealthy providers, for a WebSocket upgrade request and for a plain
HTTP request. -/
theorem C6_all_unhealthy_gives_503_witness :
    isWebSocket exampleEnv.lower exampleUpgradeRequest = true ∧
      isWebSocket exampleEnv.lower examplePlainRequest = false ∧
      (handler exampleEnv exampleAllUnhealthy exampleUpgradeRequest
          = [Effect.httpError "No healthy upstream providers are available." 503] ∧
        ∀ e ∈ handler exampleEnv exampleAllUnhealthy exampleUpgradeRequest,
          e.isOutbound = false) ∧
      (handler exampleEnv exampleAllUnhealthy examplePlainRequest
          = [Effect.httpError "No healthy upstream providers are available." 503] ∧
        ∀ e ∈ handler exampleEnv exampleAllUnhealthy examplePlainRequest,
          e.isOutbound = false) :=
  ⟨by decide, by decide,
   C6_all_unhealthy_gives_503 exampleEnv exampleAllUnhealthy exampleUpgradeRequest
     (by decide),
   C6_all_unhealthy_gives_503 exampleEnv exampleAllUnhealthy examplePlainRequest
     (by decide)⟩

/-- C7: for a plain HTTP request `r` and a selected provider whose `HttpURL` parses
to `remote`, the handler serves the reverse proxy with the request produced by the
`Director`; whatever request the `Director` is given, the result has the scheme and
host of `remote` (also in the `Host` field), the path and raw query of `r`, and the
header set of `r`. -/
theorem C7_director_rewrite (env : Env) (b : Balancer) (r : Request) (i : Nat)
    (provider : Provider) (remote : URL)
    (hsel : SelectBestProvider b = some i) (hp : b.providers[i]? = some provider)
    (hplain : isWebSocket env.lower r = false)
    (hparse : env.parse provider.HttpURL = .ok remote) :
    handler env b r
        = [Effect.logHTTPRequest provider.Name provider.Latency,
           Effect.proxyServeHTTP remote (Director remote r r)] ∧
      ∀ req : Request,
        (Director remote r req).URL.Scheme = remote.Scheme ∧
        (Director remote r req).URL.Host = remote.Host ∧
        (Director remote r req).Host = remote.Host ∧
        (Director remote r req).URL.Path = r.URL.Path ∧
        (Director remote r req).URL.RawQuery = r.URL.RawQuery ∧
        (Director remote r req).Header = r.Header := by
  refine ⟨?_, fun req => ⟨rfl, rfl, rfl, rfl, rfl, rfl⟩⟩
  simp [handler, hsel, hp, hplain, hparse]

/-- C7 on the request `/foo?x=1` and the endpoint `https://up.example/abc`: the
outgoing request goes to scheme `https`, host `up.example`, path `/foo`, query
`x=1`, with the headers of the inbound request; the path `/abc` is gone. -/
theorem C7_director_rewrite_witness :
    (Director
        { Scheme := "https", Opaque := "", Host := "up.example", Path := "/abc",
          RawPath := "", RawQuery := "", Fragment := "" }
        examplePlainRequest examplePlainRequest)
      = { Method := "POST"
          URL := { Scheme := "https", Opaque := "", Host := "up.example", Path := "/foo",
                   RawPath := "", RawQuery := "x=1", Fragment := "" }
          Host := "up.example"
          Header := [("Content-Type", ["application/json"]),
                     ("Authorization", ["Bearer t"])]
          Body := "\x7b\x7d" } ∧
      (handler exampleEnv exampleUp examplePlainRequest
          = [Effect.logHTTPRequest "Up" (3 * Millisecond),
             Effect.proxyServeHTTP
               { Scheme := "https", Opaque := "", Host := "up.example", Path := "/abc",
                 RawPath := "", RawQuery := "", Fragment := "" }
               (Director
                 { Scheme := "https", Opaque := "", Host := "up.example", Path := "/abc",
                   RawPath := "", RawQuery := "", Fragment := "" }
                 examplePlainRequest examplePlainRequest)] ∧
        ∀ req : Request,
          (Director
              { Scheme := "https", Opaque := "", Host := "up.example", Path := "/abc",
                RawPath := "", RawQuery := "", Fragment := "" }
              examplePlainRequest req).URL.Scheme = "https" ∧
          (Director
              { Scheme := "https", Opaque := "", Host := "up.example", Path := "/abc",
                RawPath := "", RawQuery := "", Fragment := "" }
              examplePlainRequest req).URL.Host = "up.example" ∧
          (Director
              { Scheme := "https", Opaque := "", Host := "up.example", Path := "/abc",
                RawPath := "", RawQuery := "", Fragment := "" }
              examplePlainRequest req).Host = "up.example" ∧
          (Director
              { Scheme := "https", Opaque := "", Host := "up.example", Path := "/abc",
                RawPath := "", RawQuery := "", Fragment := "" }
              examplePlainRequest req).URL.Path = "/foo" ∧
          (Director
              { Scheme := "https", Opaque := "", Host := "up.example", Path := "/abc",
                RawPath := "", RawQuery := "", Fragment := "" }
              examplePlainRequest req).URL.RawQuery = "x=1" ∧
          (Director
              { Scheme := "https", Opaque := "", Host := "up.example", Path := "/abc",
                RawPath := "", RawQuery := "", Fragment := "" }
              examplePlainRequest req).Header
            = [("Content-Type", ["application/json"]), ("Authorization", ["Bearer t"])]) :=
  ⟨by decide,
   C7_director_rewrite exampleEnv exampleUp examplePlainRequest 0
     { Name := "Up", HttpURL := "https://up.example/abc", WsURL := "wss://up.example/abc",
       Latency := 3 * Millisecond, IsHealthy := true }
     { Scheme := "https", Opaque := "", Host := "up.example", Path := "/abc",
       RawPath := "", RawQuery := "", Fragment := "" }
     (by decide) (by decide) (by decide) (by rfl)⟩

/-- C8: `isWebSocket` returns true exactly when the request has an `Upgrade` header
whose first value equals `"websocket"` ignoring letter case; it returns true for the
values `websocket`, `WebSocket` and `WEBSOCKET`, and false when there is no `Upgrade`
header and for the values `""`, `" websocket"`, `"websocket, h2c"` and `"h2c"`. -/
theorem C8_isWebSocket_iff (lower : Char → Char)
    (hascii : ∀ c : Char, c.toNat < 128 → lower c = c.toLower) (r : Request) :
    (isWebSocket lower r = true ↔
        ∃ v rest, r.Header.lookup "Upgrade" = some (v :: rest) ∧
          equalIgnoringCase lower v "websocket" = true) ∧
      (r.Header.lookup "Upgrade" = none → isWebSocket lower r = false) ∧
      (∀ v ∈ ["websocket", "WebSocket", "WEBSOCKET"],
        r.Header.Get "Upgrade" = v → isWebSocket lower r = true) ∧
      (∀ v ∈ ["", " websocket", "websocket, h2c", "h2c"],
        r.Header.Get "Upgrade" = v → isWebSocket lower r = false) := by
  have hws := websocket_lower lower hascii
  refine ⟨?_, ?_, ?_, ?_⟩
  · rw [isWebSocket_iff]
    unfold equalIgnoringCase Header.Get
    constructor
    · intro h
      cases hl : r.Header.lookup "Upgrade" with
      | none => rw [hl] at h; simp at h
      | some vs =>
        cases vs with
        | nil => rw [hl] at h; simp at h
        | cons v rest =>
          rw [hl] at h
          exact ⟨v, rest, rfl, by rw [hws]; simpa using h⟩
    · rintro ⟨v, rest, hl, he⟩
      rw [hl]
      rw [hws] at he
      simpa using he
  · intro hl
    rw [Bool.eq_false_iff]
    intro h
    rw [isWebSocket_iff] at h
    unfold Header.Get at h
    rw [hl] at h
    simp at h
  · intro v hv hg
    rw [isWebSocket_iff, hg]
    have hv1 : v = "websocket" ∨ v = "WebSocket" ∨ v = "WEBSOCKET" := by simpa using hv
    rcases hv1 with rfl | rfl | rfl
    · rw [map_lower_ascii lower hascii _ (by decide)]; decide
    · rw [map_lower_ascii lower hascii _ (by decide)]; decide
    · rw [map_lower_ascii lower hascii _ (by decide)]; decide
  · intro v hv hg
    rw [Bool.eq_false_iff]
    intro h
    rw [isWebSocket_iff, hg] at h
    have hv1 : v = "" ∨ v = " websocket" ∨ v = "websocket, h2c" ∨ v = "h2c" := by
      simpa using hv
    rcases hv1 with rfl | rfl | rfl | rfl
    · rw [map_lower_ascii lower hascii _ (by decide)] at h; exact absurd h (by decide)
    · rw [map_lower_ascii lower hascii _ (by decide)] at h; exact absurd h (by decide)
    · rw [map_lower_ascii lower hascii _ (by decide)] at h; exact absurd h (by decide)
    · rw [map_lower_ascii lower hascii _ (by decide)] at h; exact absurd h (by decide)

/-- C8 with ASCII lower-casing on a request that carries `Upgrade: WebSocket`. -/
theorem C8_isWebSocket_iff_witness :
    isWebSocket Char.toLower exampleUpgradeRequest = true ∧
      exampleUpgradeRequest.Header.Get "Upgrade" = "WebSocket" ∧
      ((isWebSocket Char.toLower exampleUpgradeRequest = true ↔
          ∃ v rest, exampleUpgradeRequest.Header.lookup "Upgrade" = some (v :: rest) ∧
            equalIgnoringCase Char.toLower v "websocket" = true) ∧
        (exampleUpgradeRequest.Header.lookup "Upgrade" = none →
          isWebSocket Char.toLower exampleUpgradeRequest = false) ∧
        (∀ v ∈ ["websocket", "WebSocket", "WEBSOCKET"],
          exampleUpgradeRequest.Header.Get "Upgrade" = v →
            isWebSocket Char.toLower exampleUpgradeRequest = true) ∧
        (∀ v ∈ ["", " websocket", "websocket, h2c", "h2c"],
          exampleUpgradeRequest.Header.Get "Upgrade" = v →
            isWebSocket Char.toLower exampleUpgradeRequest = false)) :=
  ⟨by decide, by decide,
   C8_isWebSocket_iff Char.toLower (fun _ _ => rfl) exampleUpgradeRequest⟩

/-- C9: after any sequence of probe-result updates and selections on the balancer
built by `NewBalancer`, the sequence of (Name, HttpURL, WsURL) triples equals the
configuration list in length and order; a probe-result update for one provider
leaves every other provider as it is and keeps the probed provider's name and
endpoints (only `IsHealthy` and `Latency` can change); `SelectBestProvider` changes
nothing. -/
theorem C9_registry_invariant (configs : List ProviderConfig) (ops : List Op) :
    (run (NewBalancer configs) ops).providers.map Provider.identity
        = configs.map ProviderConfig.identity ∧
      (run (NewBalancer configs) ops).providers.length = configs.length ∧
      (∀ (b : Balancer) (i : Nat) (g : GetResult) (d : Duration) (j : Nat), j ≠ i →
        (checkProviderHealth b i g d).1.providers[j]? = b.providers[j]?) ∧
      (∀ (b : Balancer) (i : Nat) (g : GetResult) (d : Duration) (p : Provider),
        b.providers[i]? = some p →
        ∃ p1, (checkProviderHealth b i g d).1.providers[i]? = some p1 ∧
          p1.Name = p.Name ∧ p1.HttpURL = p.HttpURL ∧ p1.WsURL = p.WsURL) ∧
      (∀ b : Balancer, step b Op.select = b) := by
  have hid : (run (NewBalancer configs) ops).providers.map Provider.identity
      = configs.map ProviderConfig.identity := by
    rw [run_identity, NewBalancer_identity]
  refine ⟨hid, ?_, checkProviderHealth_other, ?_, fun _ => rfl⟩
  · have h := congrArg List.length hid
    simpa using h
  · intro b i g d p hp
    have hi : i < b.providers.length := by
      rcases Nat.lt_or_ge i b.providers.length with h | h
      · exact h
      · rw [List.getElem?_eq_none h] at hp; cases hp
    have hrec := recordProbe_identity p g d
    unfold Provider.identity at hrec
    simp only [Prod.mk.injEq] at hrec
    refine ⟨(recordProbe p g d).1, ?_, hrec.1, hrec.2.1, hrec.2.2⟩
    simp [checkProviderHealth, hp, hi]

/-- C9 on the configuration A, B and a sequence of five operations: the triples are
those of A and B in that order, and the failed probe of B leaves A untouched. -/
theorem C9_registry_invariant_witness :
    (run (NewBalancer [exampleConfigA, exampleConfigB]) exampleOps).providers.map
        Provider.identity
      = [("A", "https://a.example", "wss://a.example"),
         ("B", "https://b.example", "wss://b.example")] ∧
    (run (NewBalancer [exampleConfigA, exampleConfigB]) exampleOps).providers.length = 2 ∧
    (checkProviderHealth (NewBalancer [exampleConfigA, exampleConfigB]) 1
        { resp := none, err := some "dial tcp: connection refused" }
        (900 * Millisecond)).1.providers[0]?
      = (NewBalancer [exampleConfigA, exampleConfigB]).providers[0]? ∧
    (∃ p1, (checkProviderHealth exampleABC 1
          { resp := none, err := some "dial tcp: connection refused" }
          (900 * Millisecond)).1.providers[1]? = some p1 ∧
        p1.Name = "B" ∧ p1.HttpURL = "https://b.example" ∧
        p1.WsURL = "wss://b.example") ∧
    (run (NewBalancer [exampleConfigA, exampleConfigB]) exampleOps).providers
      = [{ Name := "A", HttpURL := "https://a.example", WsURL := "wss://a.example",
           Latency := 7 * Millisecond, IsHealthy := true },
         { Name := "B", HttpURL := "https://b.example", WsURL := "wss://b.example",
           Latency := 0, IsHealthy := false }] :=
  ⟨(C9_registry_invariant [exampleConfigA, exampleConfigB] exampleOps).1,
   (C9_registry_invariant [exampleConfigA, exampleConfigB] exampleOps).2.1,
   (C9_registry_invariant [exampleConfigA, exampleConfigB] exampleOps).2.2.1
     (NewBalancer [exampleConfigA, exampleConfigB]) 1 _ _ 0 (by decide),
   (C9_registry_invariant [exampleConfigA, exampleConfigB] exampleOps).2.2.2.1
     exampleABC 1 _ _
     { Name := "B", HttpURL := "https://b.example", WsURL := "wss://b.example",
       Latency := 20 * Millisecond, IsHealthy := true } (by decide),
   by decide⟩

end Heimdall
